import Mathlib

/-!
Verification development for the receipt-extraction core of the
ai-invoice-extractor app: the response normalizer, retry controller,
image eligibility check and record assembly from
`src/services/groq-vision.ts`, `src/services/storage.ts` and the
capture screen.

JavaScript runtime values flowing out of `JSON.parse` are modelled by
the `JValue` type (JSON-representable values plus `undefined`, which
arises from property access on objects that lack the field).  Numbers
are modelled as rationals: every number produced by `JSON.parse` is a
finite decimal, and none of the arithmetic performed by the code under
verification can overflow a double on such inputs, so `ℚ` is exact
here.  Thrown JavaScript exceptions are modelled by `Except String`,
the string being the `Error` message.
-/

/-- A JavaScript runtime value of the shapes reachable in this code:
the JSON-representable values plus `undefined`.  Object field lists are
assumed duplicate-free (as produced by `JSON.parse`). -/
inductive JValue where
  | undefined : JValue
  | null : JValue
  | bool (b : Bool) : JValue
  | num (q : ℚ) : JValue
  | str (s : String) : JValue
  | arr (elems : List JValue) : JValue
  | obj (fields : List (String × JValue)) : JValue
deriving Repr

namespace JValue

/-- JavaScript nullish test: `null` and `undefined`. -/
def nullish : JValue → Bool
  | .null => true
  | .undefined => true
  | _ => false

/-- JavaScript truthiness.  (`NaN` cannot occur: `JSON.parse` never
produces it, and no arithmetic in the modelled code creates it.) -/
def jsTruthy : JValue → Bool
  | .undefined => false
  | .null => false
  | .bool b => b
  | .num q => q ≠ 0
  | .str s => s ≠ ""
  | .arr _ => true
  | .obj _ => true

/-- Field lookup on a non-nullish value: objects yield the field or
`undefined`; primitives and arrays yield `undefined` for the property
names used by this code. -/
def fieldOfD : JValue → String → JValue
  | .obj fields, f => ((fields.find? (fun p => p.1 = f)).map (fun p => p.2)).getD .undefined
  | _, _ => .undefined

/-- Plain property access `v.f`: throws a TypeError when `v` is
nullish, otherwise reads the field. -/
def getField (v : JValue) (f : String) : Except String JValue :=
  match v with
  | .null => .error ("TypeError: Cannot read properties of null (reading " ++ f ++ ")")
  | .undefined => .error ("TypeError: Cannot read properties of undefined (reading " ++ f ++ ")")
  | v => .ok (v.fieldOfD f)

/-- Optional-chain property access `v?.f`: `undefined` when `v` is
nullish, never throws. -/
def optField (v : JValue) (f : String) : JValue :=
  if v.nullish then .undefined else v.fieldOfD f

/-- Optional-chain index access `v?.[i]`. -/
def optIndex (v : JValue) (i : Nat) : JValue :=
  match v with
  | .null => .undefined
  | .undefined => .undefined
  | .arr elems => (elems.get? i).getD .undefined
  | .obj fields => (JValue.obj fields).fieldOfD (toString i)
  | _ => .undefined

end JValue

/-- Decimal digits of the fractional part of a rational in `[0, 1)`,
with fuel.  Every number reachable from `JSON.parse` has a terminating
decimal expansion, so the fuel is never exhausted on reachable values;
on other rationals the expansion is truncated (this approximates the
shortest-round-trip formatting of JavaScript doubles, and is never
observable in the verified claims). -/
def decimalFracDigits : Nat → ℚ → String
  | 0, _ => ""
  | fuel + 1, q =>
    if q = 0 then ""
    else
      let d := (q * 10).floor
      toString d.toNat ++ decimalFracDigits fuel (q * 10 - (d : ℚ))

/-- JavaScript Number-to-String conversion on the rationals modelling
JSON numbers: integers print without a decimal point, other values
print their decimal expansion. -/
def jsNumToString (q : ℚ) : String :=
  if q.den = 1 then toString q.num
  else
    let sign := if q < 0 then "-" else ""
    let a := |q|
    sign ++ toString a.floor.toNat ++ "." ++ decimalFracDigits 40 (a - (a.floor : ℚ))

mutual

/-- Elements of `Array.prototype.toString`: the comma-join of the
elements, where nullish elements print as the empty string. -/
def jsArrJoin : List JValue → String
  | [] => ""
  | [x] => jsArrElem x
  | x :: y :: rest => jsArrElem x ++ "," ++ jsArrJoin (y :: rest)

/-- One element of a JavaScript array-to-string join. -/
def jsArrElem : JValue → String
  | .null => ""
  | .undefined => ""
  | .bool true => "true"
  | .bool false => "false"
  | .num q => jsNumToString q
  | .str s => s
  | .arr elems => jsArrJoin elems
  | .obj _ => "[object Object]"

end

/-- JavaScript `String(v)` conversion. -/
def jsStringOf : JValue → String
  | .undefined => "undefined"
  | .null => "null"
  | .bool true => "true"
  | .bool false => "false"
  | .num q => jsNumToString q
  | .str s => s
  | .arr elems => jsArrJoin elems
  | .obj _ => "[object Object]"

/-!
Model of the ECMAScript `Date` machinery used by `normalizeResponse`
(`new Date(value)`, `getTime`, `toISOString`).  Epoch instants are
integer milliseconds.  The proleptic-Gregorian civil-date conversions
follow the standard days-from-civil / civil-from-days algorithms, which
match ECMAScript `MakeDay` / `YearFromTime` on the whole representable
range.  String parsing is modelled for the formats exercised here: ISO
`YYYY-MM-DD` (interpreted as UTC, per the ECMAScript specification) and
the English month-name form `MMM D, YYYY` (interpreted as local time,
as all major engines do); every other string is treated as unparseable.
`tzOffsetMin` is the environment's offset east of UTC, in minutes. -/

/-- Gregorian leap-year test. -/
def isLeap (y : Int) : Bool :=
  (y % 4 = 0 && y % 100 ≠ 0) || y % 400 = 0

/-- Number of days in a month of a given year. -/
def daysInMonth (y m : Int) : Int :=
  if m = 2 then (if isLeap y then 29 else 28)
  else if m = 4 ∨ m = 6 ∨ m = 9 ∨ m = 11 then 30
  else 31

/-- Days since 1970-01-01 of a proleptic-Gregorian civil date. -/
def daysFromCivil (y m d : Int) : Int :=
  let y' := if m ≤ 2 then y - 1 else y
  let era := y'.ediv 400
  let yoe := y' - era * 400
  let doy := (153 * (if 2 < m then m - 3 else m + 9) + 2).ediv 5 + d - 1
  let doe := yoe * 365 + yoe.ediv 4 - yoe.ediv 100 + doy
  era * 146097 + doe - 719468

/-- Civil date `(year, month, day)` of a days-since-epoch count. -/
def civilFromDays (z0 : Int) : Int × Int × Int :=
  let z := z0 + 719468
  let era := z.ediv 146097
  let doe := z.emod 146097
  let yoe := (doe - doe.ediv 1460 + doe.ediv 36524 - doe.ediv 146096).ediv 365
  let y := yoe + era * 400
  let doy := doe - (365 * yoe + yoe.ediv 4 - yoe.ediv 100)
  let mp := (5 * doy + 2).ediv 153
  let d := doy - (153 * mp + 2).ediv 5 + 1
  let m := if mp < 10 then mp + 3 else mp - 9
  (if m ≤ 2 then y + 1 else y, m, d)

/-- Left-pad a non-negative integer with zeros to a given width. -/
def padNum (width : Nat) (n : Int) : String :=
  let s := toString n.toNat
  String.mk (List.replicate (width - s.length) '0') ++ s

/-- Year field of `toISOString`: four digits for years 0–9999, the
expanded six-digit signed form outside that range. -/
def isoYearStr (y : Int) : String :=
  if 0 ≤ y ∧ y ≤ 9999 then padNum 4 y
  else if y < 0 then "-" ++ padNum 6 (-y)
  else "+" ++ padNum 6 y

/-- Date part of `toISOString` for a days-since-epoch count, i.e. the
result of `date.toISOString().split('T')[0]`. -/
def isoDateOfDays (z : Int) : String :=
  let c := civilFromDays z
  isoYearStr c.1 ++ "-" ++ padNum 2 c.2.1 ++ "-" ++ padNum 2 c.2.2

/-- Milliseconds per day. -/
def msPerDay : Int := 86400000

/-- Date part of `toISOString` for an epoch-millisecond instant. -/
def isoDateOfMs (ms : Int) : String :=
  isoDateOfDays (ms.ediv msPerDay)

/-- ECMAScript `TimeClip`: instants beyond 8.64e15 ms from the epoch
are invalid (`NaN`, modelled as `none`). -/
def timeClip (t : Int) : Option Int :=
  if t.natAbs ≤ 8640000000000000 then some t else none

/-- Month number of an English month name or three-letter
abbreviation. -/
def monthOfName (s : String) : Option Int :=
  if s = "Jan" ∨ s = "January" then some 1
  else if s = "Feb" ∨ s = "February" then some 2
  else if s = "Mar" ∨ s = "March" then some 3
  else if s = "Apr" ∨ s = "April" then some 4
  else if s = "May" then some 5
  else if s = "Jun" ∨ s = "June" then some 6
  else if s = "Jul" ∨ s = "July" then some 7
  else if s = "Aug" ∨ s = "August" then some 8
  else if s = "Sep" ∨ s = "September" then some 9
  else if s = "Oct" ∨ s = "October" then some 10
  else if s = "Nov" ∨ s = "November" then some 11
  else if s = "Dec" ∨ s = "December" then some 12
  else none

/-- Strip a separator from the front of a character list, if it is
there. -/
def dropSepHead : List Char → List Char → Option (List Char)
  | [], rest => some rest
  | _, [] => none
  | p :: ps, c :: cs => if p = c then dropSepHead ps cs else none

/-- Split a character list at every non-overlapping occurrence of a
non-empty separator, scanning left to right.  The first `Nat` is fuel,
instantiated to the list length so the kernel can evaluate it. -/
def splitSepAux (s0 : Char) (srest : List Char) : Nat → List Char → List Char → List (List Char)
  | 0, cs, acc => [acc.reverse ++ cs]
  | _ + 1, [], acc => [acc.reverse]
  | fuel + 1, c :: cs, acc =>
    match dropSepHead (s0 :: srest) (c :: cs) with
    | some rest => acc.reverse :: splitSepAux s0 srest fuel rest []
    | none => splitSepAux s0 srest fuel cs (c :: acc)

/-- String split on a non-empty separator (the separators used by the
date model are `"-"`, `", "` and `" "`). -/
def jsSplitOn (s : String) (sep : String) : List String :=
  match sep.data with
  | [] => [s]
  | s0 :: srest => (splitSepAux s0 srest s.data.length s.data []).map String.mk

/-- Non-empty all-digit string test. -/
def isDigitStr (s : String) : Bool :=
  !s.data.isEmpty && s.data.all Char.isDigit

/-- Numeric value of an all-digit character list. -/
def digitsToNat : List Char → Nat → Nat
  | [], acc => acc
  | c :: cs, acc => digitsToNat cs (acc * 10 + (c.toNat - 48))

/-- Numeric value of an all-digit string. -/
def digitStrToNat (s : String) : Nat :=
  digitsToNat s.data 0

/-- Parse an ISO `YYYY-MM-DD` date-only string into its fields. -/
def parseIsoDateParts (s : String) : Option (Int × Int × Int) :=
  match jsSplitOn s "-" with
  | [ys, ms, ds] =>
    if ys.length = 4 && ms.length = 2 && ds.length = 2
        && isDigitStr ys && isDigitStr ms && isDigitStr ds then
      some ((digitStrToNat ys : Int), (digitStrToNat ms : Int), (digitStrToNat ds : Int))
    else none
  | _ => none

/-- Parse an English month-name date `MMM D, YYYY` into its fields. -/
def parseMonthNameParts (s : String) : Option (Int × Int × Int) :=
  match jsSplitOn s ", " with
  | [md, ys] =>
    (match jsSplitOn md " " with
     | [ms, ds] =>
       (match monthOfName ms with
        | some m =>
          if isDigitStr ds && ds.length ≤ 2 && isDigitStr ys && ys.length ≤ 6 then
            some ((digitStrToNat ys : Int), m, (digitStrToNat ds : Int))
          else none
        | none => none)
     | _ => none)
  | _ => none

/-- Calendar validity of parsed date fields; engines reject
out-of-range fields (for example `Feb 31`) as `Invalid Date`. -/
def validYMD (y m d : Int) : Bool :=
  1 ≤ m && m ≤ 12 && 1 ≤ d && d ≤ daysInMonth y m

/-- ECMAScript date parsing of a string, for the formats exercised by
this code: ISO date-only strings are UTC, month-name dates are local
time at offset `tzOffsetMin` minutes east of UTC, anything else is
`Invalid Date` (`none`). -/
def jsDateParseString (tzOffsetMin : Int) (s : String) : Option Int :=
  match parseIsoDateParts s with
  | some (y, m, d) =>
    if validYMD y m d then timeClip (daysFromCivil y m d * msPerDay) else none
  | none =>
    match parseMonthNameParts s with
    | some (y, m, d) =>
      if validYMD y m d then
        timeClip (daysFromCivil y m d * msPerDay - tzOffsetMin * 60000)
      else none
    | none => none

/-- Truncation toward zero of a rational, as ECMAScript
`ToIntegerOrInfinity` does to number arguments of `Date`. -/
def ratTrunc (q : ℚ) : Int :=
  q.num.tdiv (q.den : Int)

/-- Model of `new Date(v).getTime()`: `some` epoch milliseconds, or
`none` for `Invalid Date`. -/
def jsNewDate (tzOffsetMin : Int) : JValue → Option Int
  | .num q => timeClip (ratTrunc q)
  | .str s => jsDateParseString tzOffsetMin s
  | .bool b => timeClip (if b then 1 else 0)
  | .null => timeClip 0
  | .undefined => none
  | .arr elems => jsDateParseString tzOffsetMin (jsStringOf (.arr elems))
  | .obj fields => jsDateParseString tzOffsetMin (jsStringOf (.obj fields))

/-- The closed enumeration of invoice types (`src/types`). -/
inductive InvoiceType where
  | retail | restaurant | utility | service | unknown
deriving Repr, DecidableEq

/-- A normalized line item: `name` is genuinely a string, `quantity`
genuinely a number or null, `price` genuinely a number — these are the
invariants the normalizer's per-item coercions actually establish. -/
structure LineItem where
  name : String
  quantity : Option ℚ
  price : ℚ
deriving Repr, DecidableEq

/-- The normalizer's output record (the spec's ExtractionResult).  Each
field carries the strongest type the code actually guarantees at
runtime: `invoice_type`, `items`, the money fields, `currency` and
`confidence_score` are genuinely validated, while the free-text fields
are produced by the truthiness passthrough `x || null` (and
`receipt_date` by a falsy passthrough), which lets arbitrary truthy
values through unchanged, so those stay `JValue`. -/
structure GroqReceiptResponse where
  merchant_name : JValue
  receipt_date : JValue
  receipt_number : JValue
  invoice_type : InvoiceType
  items : List LineItem
  subtotal : Option ℚ
  tax : Option ℚ
  total : Option ℚ
  currency : String
  payment_method : JValue
  confidence_score : ℚ
  error_message : JValue
deriving Repr

/-- The truthiness passthrough `v || null`. -/
def jsOrNull (v : JValue) : JValue :=
  if v.jsTruthy then v else .null

/-- The coercion `typeof v === 'number' ? v : null`. -/
def asNumOpt : JValue → Option ℚ
  | .num q => some q
  | _ => none

/-- The nullish coalescing `v ?? d`. -/
def jsCoalesce (v d : JValue) : JValue :=
  if v.nullish then d else v

/-- ASCII uppercase, the fragment of `String.prototype.toUpperCase`
exercised by currency codes. -/
def jsToUpperCase (s : String) : String :=
  String.mk (s.data.map Char.toUpper)

/-- The optional-chain method call `v?.toUpperCase()`: `undefined` on
nullish receivers, a TypeError on non-string non-nullish receivers. -/
def jsOptToUpper : JValue → Except String JValue
  | .null => .ok .undefined
  | .undefined => .ok .undefined
  | .str s => .ok (.str (jsToUpperCase s))
  | _ => .error "TypeError: response.currency.toUpperCase is not a function"

/-- The list `validTypes` of `normalizeResponse`. -/
def validTypes : List String :=
  ["retail", "restaurant", "utility", "service", "unknown"]

/-- Enum clamping of `invoice_type`: `validTypes.includes(v)` uses
strict equality, so only the five member strings survive; everything
else collapses to `unknown`. -/
def normInvoiceType : JValue → InvoiceType
  | .str "retail" => .retail
  | .str "restaurant" => .restaurant
  | .str "utility" => .utility
  | .str "service" => .service
  | _ => .unknown

/-- Per-item normalization from `normalizeResponse`: property access on
a nullish element throws, `name` is stringified with an `"Unknown
Item"` fallback for falsy values, `quantity` passes through only
numbers, `price` passes through numbers and defaults to 0. -/
def normalizeItem (item : JValue) : Except String LineItem := do
  let nameV ← item.getField "name"
  let quantityV ← item.getField "quantity"
  let priceV ← item.getField "price"
  pure
    { name := jsStringOf (if nameV.jsTruthy then nameV else .str "Unknown Item")
      quantity := asNumOpt quantityV
      price := (asNumOpt priceV).getD 0 }

/-- Items normalization from `normalizeResponse`: `Array.isArray`
gates the per-element map, a non-array normalizes to the empty list. -/
def normItems : JValue → Except String (List LineItem)
  | .arr elems => elems.mapM normalizeItem
  | _ => pure []

/-- Date normalization from `normalizeResponse`: a falsy value skips
the whole block and passes through unchanged; a truthy value is fed to
`new Date(...)`, an invalid parse becomes null, a valid parse becomes
the date part of `toISOString()`.  The surrounding `try` is dead code:
no operation in the block can throw (`toISOString` is guarded by the
`isNaN` test). -/
def normReceiptDate (tzOffsetMin : Int) (receiptDate : JValue) : JValue :=
  if receiptDate.jsTruthy then
    match jsNewDate tzOffsetMin receiptDate with
    | some ms => .str (isoDateOfMs ms)
    | none => .null
  else receiptDate

/-- Confidence clamping from `normalizeResponse` lines 397–403. -/
def normConfidenceScore : JValue → ℚ
  | .num q =>
    if q < 0 then 0
    else if 1 < q then (if 100 < q then 1 else q / 100)
    else q
  | _ => 0

/-- The Response Normalizer `normalizeResponse` of
`src/services/groq-vision.ts`.  Property accesses on the response and
on item elements, and the `currency?.toUpperCase()` call, can throw
TypeErrors, which the `Except` layer records; everything else is the
field-by-field coercion of the source. -/
def normalizeResponse (tzOffsetMin : Int) (response : JValue) : Except String GroqReceiptResponse := do
  let invoiceTypeV ← response.getField "invoice_type"
  let invoiceType := normInvoiceType invoiceTypeV
  let itemsV ← response.getField "items"
  let items ← normItems itemsV
  let receiptDateV ← response.getField "receipt_date"
  let receiptDate := normReceiptDate tzOffsetMin receiptDateV
  let currencyV ← response.getField "currency"
  let currencyUp ← jsOptToUpper currencyV
  let currency := if currencyUp.jsTruthy then jsStringOf currencyUp else "BDT"
  let confidenceV ← response.getField "confidence_score"
  let merchantV ← response.getField "merchant_name"
  let receiptNumberV ← response.getField "receipt_number"
  let subtotalV ← response.getField "subtotal"
  let taxV ← response.getField "tax"
  let totalV ← response.getField "total"
  let paymentV ← response.getField "payment_method"
  let errorMessageV ← response.getField "error_message"
  pure
    { merchant_name := jsOrNull merchantV
      receipt_date := receiptDate
      receipt_number := jsOrNull receiptNumberV
      invoice_type := invoiceType
      items := items
      subtotal := asNumOpt subtotalV
      tax := asNumOpt taxV
      total := asNumOpt totalV
      currency := currency
      payment_method := jsOrNull paymentV
      confidence_score := normConfidenceScore confidenceV
      error_message := jsOrNull errorMessageV }

/-- Observable outcome of `parseReceiptWithRetry`: the attempts that
ran, the attempts whose call threw (executions of the `catch` branch),
the `setTimeout` delays in milliseconds in order, and the returned
result. -/
structure RetryOut where
  attempts : List Nat
  caught : List Nat
  delaysMs : List Nat
  result : GroqReceiptResponse
deriving Repr

/-- The terminal failure result built after the retry loop
(`src/services/groq-vision.ts` lines 337–351).  `lastError?.message`
renders as the string `"undefined"` inside the template literal when
`lastError` is still null. -/
def failureResult (maxRetries : Nat) (lastError : Option String) : GroqReceiptResponse :=
  { merchant_name := .null
    receipt_date := .null
    receipt_number := .null
    invoice_type := .unknown
    items := []
    subtotal := none
    tax := none
    total := none
    currency := "BDT"
    payment_method := .null
    confidence_score := 0
    error_message := .str ("Failed after " ++ toString maxRetries ++ " attempts: "
      ++ (match lastError with | some m => m | none => "undefined")) }

/-- The loop body of `parseReceiptWithRetry`, recursing on the number
of remaining iterations (`remaining = maxRetries - attempt + 1` at each
entry).  `call attempt` is the behavior of `await parseReceipt(...)` on
that attempt: `.ok` a result or `.error` a thrown message, the latter
landing in the translated `catch` branch.  A result is returned when
`result.total !== null || result.error_message`—note the second
disjunct is a truthiness test.  The backoff `setTimeout` of
`2 ** attempt * 1000` ms runs only when `attempt < maxRetries`. -/
def retryLoop (call : Nat → Except String GroqReceiptResponse) (maxRetries : Nat) :
    Nat → Nat → Option String → List Nat → List Nat → List Nat → Except String RetryOut
  | 0, _, lastError, atts, caught, delays =>
    .ok ⟨atts, caught, delays, failureResult maxRetries lastError⟩
  | remaining + 1, attempt, _, atts, caught, delays =>
    match call attempt with
    | .ok result =>
      if result.total.isSome || result.error_message.jsTruthy then
        .ok ⟨atts ++ [attempt], caught, delays, result⟩
      else
        retryLoop call maxRetries remaining (attempt + 1)
          (some "Failed to extract receipt total") (atts ++ [attempt]) caught delays
    | .error e =>
      if attempt < maxRetries then
        retryLoop call maxRetries remaining (attempt + 1) (some e)
          (atts ++ [attempt]) (caught ++ [attempt]) (delays ++ [2 ^ attempt * 1000])
      else
        retryLoop call maxRetries remaining (attempt + 1) (some e)
          (atts ++ [attempt]) (caught ++ [attempt]) delays

/-- The Retry Controller `parseReceiptWithRetry` of
`src/services/groq-vision.ts`, as a function of the per-attempt
behavior of `parseReceipt`.  The `Except` result type records whether
an exception escapes to the caller. -/
def parseReceiptWithRetry (call : Nat → Except String GroqReceiptResponse)
    (maxRetries : Nat) : Except String RetryOut :=
  retryLoop call maxRetries maxRetries 1 none [] [] []

/-- Processed image payload, as far as `parseReceipt` consumes it. -/
structure ProcessedImage where
  base64 : String
deriving Repr

/-- Behavior of the awaited `fetch` response: HTTP status information
plus the behavior of `response.json()`. -/
structure FetchResponse where
  ok : Bool
  status : Nat
  statusText : String
  json : Except String JValue

/-- Behaviors of the awaited platform sub-operations of one
`parseReceipt` call: image processing, API-key lookup, the network
call, and `JSON.parse`.  Each can return a value or throw. -/
structure ParseEnv where
  tzOffsetMin : Int
  processImage : Except String ProcessedImage
  apiKey : Except String String
  fetchResult : Except String FetchResponse
  jsonParse : String → Except String JValue

/-- The error-message extraction `errorData.error?.message ||
response.statusText` inside the non-ok branch of `parseReceipt` (plain
access on `errorData`, then an optional chain). -/
def apiErrorMessage (errorData : JValue) (statusText : String) : Except String String := do
  let errV ← errorData.getField "error"
  let msgV := errV.optField "message"
  pure (if msgV.jsTruthy then jsStringOf msgV else statusText)

/-- The `try` block of `parseReceipt` (`src/services/groq-vision.ts`
lines 227–284): process the image, read the API key, issue the
request, check the HTTP status, extract
`data.choices?.[0]?.message?.content`, `JSON.parse` it and normalize. -/
def parseReceiptBody (env : ParseEnv) : Except String GroqReceiptResponse := do
  let _processedImage ← env.processImage
  let _apiKey ← env.apiKey
  let response ← env.fetchResult
  if !response.ok then
    let errorData : JValue := match response.json with | .ok v => v | .error _ => .obj []
    let msg ← apiErrorMessage errorData response.statusText
    throw ("Groq API error: " ++ toString response.status ++ " - " ++ msg)
  else
    let data ← response.json
    let choicesV ← data.getField "choices"
    let content := ((choicesV.optIndex 0).optField "message").optField "content"
    if !content.jsTruthy then
      throw "No response from Groq API"
    else
      let parsed ← env.jsonParse (jsStringOf content)
      normalizeResponse env.tzOffsetMin parsed

/-- The catch-block result of `parseReceipt` (lines 287–301): every
nullable field null, `invoice_type` unknown, currency `BDT`, zero
confidence, and the thrown message as `error_message`. -/
def catchReceiptResult (e : String) : GroqReceiptResponse :=
  { merchant_name := .null
    receipt_date := .null
    receipt_number := .null
    invoice_type := .unknown
    items := []
    subtotal := none
    tax := none
    total := none
    currency := "BDT"
    payment_method := .null
    confidence_score := 0
    error_message := .str e }

/-- The single-attempt operation `parseReceipt`: its whole body is one
`try`/`catch`, so a thrown error is converted into a returned error
result. -/
def parseReceipt (env : ParseEnv) : Except String GroqReceiptResponse :=
  match parseReceiptBody env with
  | .ok result => .ok result
  | .error e => .ok (catchReceiptResult e)

/-- File metadata as probed by `FileSystem.getInfoAsync` (`size` is
optional on the legacy API, defaulted to 0 by the code). -/
structure ImageFileInfo where
  fileExists : Bool
  size : Option Nat
deriving Repr, DecidableEq

/-- Behaviors of the awaited probes of one `validateImage` call. -/
structure ValidateEnv where
  getInfo : Except String ImageFileInfo
  getDimensions : Except String (Nat × Nat)

/-- The `{ valid, error? }` object returned by `validateImage`. -/
structure ValidationOutcome where
  valid : Bool
  error : Option String
deriving Repr, DecidableEq

/-- The `try` block of `validateImage` (`src/services/groq-vision.ts`
lines 429–452). -/
def validateImageBody (env : ValidateEnv) : Except String ValidationOutcome := do
  let fileInfo ← env.getInfo
  if !fileInfo.fileExists then
    pure ⟨false, some "Image file not found"⟩
  else
    let size := fileInfo.size.getD 0
    if size > 20 * 1024 * 1024 then
      pure ⟨false, some "Image file is too large (max 20MB)"⟩
    else
      let dimensions ← env.getDimensions
      let totalPixels := dimensions.1 * dimensions.2
      if totalPixels > 33177600 then
        pure ⟨false, some "Image resolution too high (max 33 megapixels)"⟩
      else
        pure ⟨true, none⟩

/-- The Image Eligibility Checker `validateImage`: any exception from
the probes is caught and reported as an invalid outcome carrying the
error message. -/
def validateImage (env : ValidateEnv) : ValidationOutcome :=
  match validateImageBody env with
  | .ok outcome => outcome
  | .error e => ⟨false, some e⟩

/-- The `ReceiptInput` assembled by `handleCapture` on the capture
screen from an extraction result and the captured image reference. -/
structure ReceiptInput where
  merchant_name : JValue
  receipt_date : JValue
  receipt_number : JValue
  invoice_type : InvoiceType
  items : List LineItem
  subtotal : Option ℚ
  tax : Option ℚ
  total : ℚ
  currency : String
  payment_method : JValue
  confidence_score : ℚ
  image_uri : String
  raw_text : JValue
  error_message : JValue
deriving Repr

/-- The persisted `Receipt` entity: the input fields plus the minted
identifier and creation timestamp. -/
structure Receipt where
  id : String
  merchant_name : JValue
  receipt_date : JValue
  receipt_number : JValue
  invoice_type : InvoiceType
  items : List LineItem
  subtotal : Option ℚ
  tax : Option ℚ
  total : ℚ
  currency : String
  payment_method : JValue
  confidence_score : ℚ
  image_uri : String
  raw_text : JValue
  error_message : JValue
  created_at : String
deriving Repr

/-- The `receiptInput` literal of `handleCapture`
(`src/unnamed/part_001` lines 60–76): every field copies through,
except `total := result.total ?? 0` and the nullish-coalesced
`raw_text` and `error_message`.  The normalizer's output never carries
a `raw_text` field, so `result.raw_text ?? null` is null. -/
def buildReceiptInput (result : GroqReceiptResponse) (imageUri : String) : ReceiptInput :=
  { merchant_name := result.merchant_name
    receipt_date := result.receipt_date
    receipt_number := result.receipt_number
    invoice_type := result.invoice_type
    items := result.items
    subtotal := result.subtotal
    tax := result.tax
    total := result.total.getD 0
    currency := result.currency
    payment_method := result.payment_method
    confidence_score := result.confidence_score
    image_uri := imageUri
    raw_text := .null
    error_message := jsCoalesce result.error_message .null }

/-- `createReceipt` of `src/services/storage.ts` (lines 93–131):
spread the input and attach the freshly minted `id` and `created_at`.
Minting (`generateId()`, `new Date().toISOString()`) draws on the
clock and randomness, modelled as the `id` and `created_at`
parameters. -/
def createReceipt (input : ReceiptInput) (id created_at : String) : Receipt :=
  { id := id
    merchant_name := input.merchant_name
    receipt_date := input.receipt_date
    receipt_number := input.receipt_number
    invoice_type := input.invoice_type
    items := input.items
    subtotal := input.subtotal
    tax := input.tax
    total := input.total
    currency := input.currency
    payment_method := input.payment_method
    confidence_score := input.confidence_score
    image_uri := input.image_uri
    raw_text := input.raw_text
    error_message := input.error_message
    created_at := created_at }

/-- Record Assembly as performed by `handleCapture`: build the input
from the extraction result and persist it through `createReceipt`. -/
def handleCaptureAssemble (result : GroqReceiptResponse) (imageUri id created_at : String) : Receipt :=
  createReceipt (buildReceiptInput result imageUri) id created_at

/-- Inputs whose `currency` field does not make
`currency?.toUpperCase()` throw: a string, or nullish/absent. -/
def currencyFieldOK (response : JValue) : Bool :=
  match response.fieldOfD "currency" with
  | .str _ => true
  | .null => true
  | .undefined => true
  | _ => false

/-- Inputs whose `items` field, when it is an array, contains no
nullish element (property access on a nullish element throws). -/
def itemsFieldOK (response : JValue) : Bool :=
  match response.fieldOfD "items" with
  | .arr elems => elems.all (fun x => !x.nullish)
  | _ => true

/-- The element list the items normalization maps over: the `items`
field when it is an array, otherwise the empty list. -/
def itemsListOf (response : JValue) : List JValue :=
  match response.fieldOfD "items" with
  | .arr elems => elems
  | _ => []

/-- Whether an `Except` computation returned normally rather than
throwing. -/
def excIsOk {ε α : Type} : Except ε α → Bool
  | .ok _ => true
  | .error _ => false

example : daysFromCivil 1970 1 1 = 0 := by decide
example : civilFromDays 0 = (1970, 1, 1) := by decide
example : isoDateOfDays (daysFromCivil 2025 1 12) = "2025-01-12" := by decide
example : jsDateParseString 0 "Jan 12, 2025" = some 1736640000000 := by decide
example : jsDateParseString 0 "not a date" = none := by decide
example : jsNewDate 0 (JValue.str "2025-01-12") = some 1736640000000 := by decide

/-!  Shared lemmas. -/

theorem except_bind_ok {α β ε : Type} (a : α) (f : α → Except ε β) :
    (Except.ok a >>= f : Except ε β) = f a := rfl

theorem except_bind_error {α β ε : Type} (e : ε) (f : α → Except ε β) :
    (Except.error e >>= f : Except ε β) = Except.error e := rfl

theorem getField_of_not_nullish (v : JValue) (f : String) (h : v.nullish = false) :
    v.getField f = .ok (v.fieldOfD f) := by
  cases v <;> simp_all [JValue.nullish, JValue.getField]

theorem normalizeItem_of_not_nullish (item : JValue) (h : item.nullish = false) :
    normalizeItem item = .ok
      { name := jsStringOf (if (item.fieldOfD "name").jsTruthy then item.fieldOfD "name" else .str "Unknown Item")
        quantity := asNumOpt (item.fieldOfD "quantity")
        price := (asNumOpt (item.fieldOfD "price")).getD 0 } := by
  unfold normalizeItem
  simp [getField_of_not_nullish _ _ h, except_bind_ok]

theorem mapM_normalizeItem_ok (elems : List JValue)
    (h : elems.all (fun x => !x.nullish) = true) :
    ∃ ys, elems.mapM normalizeItem = .ok ys := by
  induction elems with
  | nil => exact ⟨[], rfl⟩
  | cons x xs ih =>
    simp only [List.all_cons, Bool.and_eq_true, Bool.not_eq_true'] at h
    obtain ⟨hx, hxs⟩ := h
    obtain ⟨ys, hys⟩ := ih (by simpa [List.all_eq_true] using hxs)
    refine ⟨{ name := jsStringOf (if (x.fieldOfD "name").jsTruthy then x.fieldOfD "name" else .str "Unknown Item")
              quantity := asNumOpt (x.fieldOfD "quantity")
              price := (asNumOpt (x.fieldOfD "price")).getD 0 } :: ys, ?_⟩
    rw [List.mapM_cons, normalizeItem_of_not_nullish x hx, except_bind_ok, hys, except_bind_ok]
    rfl

theorem mapM_ok_forall2 {α β : Type} (f : α → Except String β) :
    ∀ (xs : List α) (ys : List β), xs.mapM f = .ok ys →
      List.Forall₂ (fun x y => f x = .ok y) xs ys := by
  intro xs
  induction xs with
  | nil =>
    intro ys h
    simp only [List.mapM_nil] at h
    cases h
    exact List.Forall₂.nil
  | cons x xs ih =>
    intro ys h
    rw [List.mapM_cons] at h
    cases hfx : f x with
    | error e =>
      rw [hfx, except_bind_error] at h
      exact Except.noConfusion h
    | ok y =>
      rw [hfx, except_bind_ok] at h
      cases hrest : xs.mapM f with
      | error e =>
        rw [hrest, except_bind_error] at h
        exact Except.noConfusion h
      | ok ys' =>
        rw [hrest, except_bind_ok] at h
        cases h
        exact List.Forall₂.cons hfx (ih ys' hrest)

theorem normConfidenceScore_bounds (v : JValue) :
    0 ≤ normConfidenceScore v ∧ normConfidenceScore v ≤ 1 := by
  cases v with
  | num q =>
    simp only [normConfidenceScore]
    split
    · norm_num
    · split
      · split
        · norm_num
        · rename_i h0 h1 h100
          refine ⟨div_nonneg (le_of_not_lt h0) (by norm_num), ?_⟩
          rw [div_le_one (by norm_num : (0 : ℚ) < 100)]
          exact le_of_not_lt h100
      · rename_i h0 h1
        exact ⟨le_of_not_lt h0, le_of_not_lt h1⟩
  | undefined => exact ⟨le_rfl, zero_le_one⟩
  | null => exact ⟨le_rfl, zero_le_one⟩
  | bool b => exact ⟨le_rfl, zero_le_one⟩
  | str s => exact ⟨le_rfl, zero_le_one⟩
  | arr elems => exact ⟨le_rfl, zero_le_one⟩
  | obj fields => exact ⟨le_rfl, zero_le_one⟩

theorem normalizeResponse_ok_inv (tz : Int) (response : JValue) (r : GroqReceiptResponse)
    (h : normalizeResponse tz response = .ok r) :
    response.nullish = false ∧
    r.invoice_type = normInvoiceType (response.fieldOfD "invoice_type") ∧
    normItems (response.fieldOfD "items") = .ok r.items ∧
    r.receipt_date = normReceiptDate tz (response.fieldOfD "receipt_date") ∧
    r.subtotal = asNumOpt (response.fieldOfD "subtotal") ∧
    r.tax = asNumOpt (response.fieldOfD "tax") ∧
    r.total = asNumOpt (response.fieldOfD "total") ∧
    r.merchant_name = jsOrNull (response.fieldOfD "merchant_name") ∧
    r.receipt_number = jsOrNull (response.fieldOfD "receipt_number") ∧
    r.payment_method = jsOrNull (response.fieldOfD "payment_method") ∧
    r.error_message = jsOrNull (response.fieldOfD "error_message") ∧
    r.confidence_score = normConfidenceScore (response.fieldOfD "confidence_score") ∧
    (∃ up, jsOptToUpper (response.fieldOfD "currency") = .ok up ∧
       r.currency = if up.jsTruthy then jsStringOf up else "BDT") := by
  have hn : response.nullish = false := by
    cases hv : response <;> try rfl
    all_goals (subst hv; simp [normalizeResponse, JValue.getField, except_bind_error] at h)
  unfold normalizeResponse at h
  simp only [getField_of_not_nullish _ _ hn, except_bind_ok] at h
  cases hitems : normItems (response.fieldOfD "items") with
  | error e =>
    rw [hitems, except_bind_error] at h
    exact Except.noConfusion h
  | ok items =>
    rw [hitems, except_bind_ok] at h
    cases hup : jsOptToUpper (response.fieldOfD "currency") with
    | error e =>
      rw [hup, except_bind_error] at h
      exact Except.noConfusion h
    | ok up =>
      rw [hup, except_bind_ok] at h
      cases h
      exact ⟨hn, rfl, rfl, rfl, rfl, rfl, rfl, rfl, rfl, rfl, rfl, rfl, up, rfl, rfl⟩

theorem normItems_ok_of_itemsFieldOK (response : JValue) (hi : itemsFieldOK response = true) :
    ∃ items, normItems (response.fieldOfD "items") = .ok items := by
  unfold itemsFieldOK at hi
  unfold normItems
  cases hfi : response.fieldOfD "items" <;> try exact ⟨[], rfl⟩
  rw [hfi] at hi
  exact mapM_normalizeItem_ok _ hi

theorem jsOptToUpper_ok_of_currencyFieldOK (response : JValue) (hc : currencyFieldOK response = true) :
    ∃ up, jsOptToUpper (response.fieldOfD "currency") = .ok up := by
  unfold currencyFieldOK at hc
  cases hfc : response.fieldOfD "currency" <;> rw [hfc] at hc <;>
    first
      | exact ⟨.undefined, rfl⟩
      | exact ⟨.str (jsToUpperCase _), rfl⟩
      | exact Bool.noConfusion hc

theorem normalizeResponse_ok_of_safe (tz : Int) (response : JValue)
    (hn : response.nullish = false) (hc : currencyFieldOK response = true)
    (hi : itemsFieldOK response = true) :
    ∃ r, normalizeResponse tz response = .ok r := by
  obtain ⟨items, hitems⟩ := normItems_ok_of_itemsFieldOK response hi
  obtain ⟨up, hup⟩ := jsOptToUpper_ok_of_currencyFieldOK response hc
  unfold normalizeResponse
  simp only [getField_of_not_nullish _ _ hn, except_bind_ok]
  rw [hitems, except_bind_ok, hup, except_bind_ok]
  exact ⟨_, rfl⟩

theorem retryLoop_total (call : Nat → Except String GroqReceiptResponse) (maxRetries : Nat) :
    ∀ remaining attempt lastError atts caught delays,
      ∃ out, retryLoop call maxRetries remaining attempt lastError atts caught delays = .ok out := by
  intro remaining
  induction remaining with
  | zero => intro attempt lastError atts caught delays; exact ⟨_, rfl⟩
  | succ k ih =>
    intro attempt lastError atts caught delays
    unfold retryLoop
    split
    · split
      · exact ⟨_, rfl⟩
      · exact ih _ _ _ _ _
    · split
      · exact ih _ _ _ _ _
      · exact ih _ _ _ _ _

theorem retryLoop_all_ok_no_catch (call : Nat → Except String GroqReceiptResponse)
    (maxRetries : Nat) (hall : ∀ n, ∃ r, call n = .ok r) :
    ∀ remaining attempt lastError atts caught delays out,
      retryLoop call maxRetries remaining attempt lastError atts caught delays = .ok out →
      out.caught = caught ∧ out.delaysMs = delays := by
  intro remaining
  induction remaining with
  | zero =>
    intro attempt lastError atts caught delays out h
    cases h
    exact ⟨rfl, rfl⟩
  | succ k ih =>
    intro attempt lastError atts caught delays out h
    obtain ⟨r, hr⟩ := hall attempt
    unfold retryLoop at h
    split at h
    · rename_i result heq
      split at h
      · cases h
        exact ⟨rfl, rfl⟩
      · exact ih _ _ _ _ _ _ h
    · rename_i e heq
      rw [hr] at heq
      exact Except.noConfusion heq

theorem parseReceipt_isOk (env : ParseEnv) : ∃ r, parseReceipt env = .ok r := by
  unfold parseReceipt
  cases parseReceiptBody env with
  | ok result => exact ⟨result, rfl⟩
  | error e => exact ⟨catchReceiptResult e, rfl⟩

/-!  Claim C1: totality of the Response Normalizer. -/

/-- C1 counterexample: the Response Normalizer is not total.  It
throws a TypeError on three of the very inputs the claim lists: an
object whose `currency` is a number (the `currency?.toUpperCase()`
call), the input `null` itself (the first property access), and an
items array containing a `null` element (the per-item property
accesses). -/
theorem normalizeResponse_throws_on_claimed_inputs :
    excIsOk (normalizeResponse 0 (JValue.obj [("currency", JValue.num 5)])) = false ∧
    excIsOk (normalizeResponse 0 JValue.null) = false ∧
    excIsOk (normalizeResponse 0 (JValue.obj [("items", JValue.arr [JValue.null])])) = false :=
  ⟨rfl, rfl, rfl⟩

/-- C1 (corrected): the Response Normalizer returns a well-formed
result — in particular a confidence score clamped into `[0, 1]` — and
never throws, for every JSON-like input except the throwing ones: a
nullish input, a `currency` field that is present, non-nullish and not
a string, or an `items` array containing a nullish element. -/
theorem normalizeResponse_total_on_nonthrowing_inputs (tz : Int) (response : JValue)
    (hn : response.nullish = false) (hc : currencyFieldOK response = true)
    (hi : itemsFieldOK response = true) :
    ∃ r, normalizeResponse tz response = Except.ok r ∧
      0 ≤ r.confidence_score ∧ r.confidence_score ≤ 1 := by
  obtain ⟨r, hr⟩ := normalizeResponse_ok_of_safe tz response hn hc hi
  obtain ⟨-, -, -, -, -, -, -, -, -, -, -, hconf, -⟩ := normalizeResponse_ok_inv tz response r hr
  refine ⟨r, hr, ?_, ?_⟩ <;> rw [hconf]
  · exact (normConfidenceScore_bounds _).1
  · exact (normConfidenceScore_bounds _).2

/-- C1 witness: a concrete malformed-but-nonthrowing response
normalizes successfully with an in-range confidence score. -/
theorem normalizeResponse_total_on_nonthrowing_inputs_witness :
    ∃ r, normalizeResponse 0
        (JValue.obj [("currency", JValue.str "usd"), ("confidence_score", JValue.num 150),
          ("items", JValue.arr [JValue.obj [("name", JValue.str "tea")]])]) = Except.ok r ∧
      0 ≤ r.confidence_score ∧ r.confidence_score ≤ 1 :=
  normalizeResponse_total_on_nonthrowing_inputs 0 _ rfl rfl rfl

/-!  Claim C2: confidence-score clamping. -/

/-- C2 (confirmed): the normalized confidence score is exactly the
clamping function of the input value — 0 for non-numbers and negative
numbers, 1 for values above 100, `v / 100` for values in `(1, 100]`,
and `v` itself on `[0, 1]` — always lands in `[0, 1]`, and maps the
claimed examples 0.92, 150, 75, −1 and `"high"` to 0.92, 1, 0.75, 0
and 0. -/
theorem confidence_score_clamping :
    (∀ tz response r, normalizeResponse tz response = Except.ok r →
       r.confidence_score = normConfidenceScore (response.fieldOfD "confidence_score")) ∧
    (∀ v, 0 ≤ normConfidenceScore v ∧ normConfidenceScore v ≤ 1) ∧
    (∀ v, (∀ q : ℚ, v ≠ JValue.num q) → normConfidenceScore v = 0) ∧
    (∀ q : ℚ, q < 0 → normConfidenceScore (JValue.num q) = 0) ∧
    (∀ q : ℚ, 0 ≤ q → q ≤ 1 → normConfidenceScore (JValue.num q) = q) ∧
    (∀ q : ℚ, 1 < q → q ≤ 100 → normConfidenceScore (JValue.num q) = q / 100) ∧
    (∀ q : ℚ, 100 < q → normConfidenceScore (JValue.num q) = 1) ∧
    normConfidenceScore (JValue.num (92 / 100)) = 92 / 100 ∧
    normConfidenceScore (JValue.num 150) = 1 ∧
    normConfidenceScore (JValue.num 75) = 75 / 100 ∧
    normConfidenceScore (JValue.num (-1)) = 0 ∧
    normConfidenceScore (JValue.str "high") = 0 := by
  refine ⟨?_, normConfidenceScore_bounds, ?_, ?_, ?_, ?_, ?_, ?_, ?_, ?_, ?_, rfl⟩
  · intro tz response r h
    exact (normalizeResponse_ok_inv tz response r h).2.2.2.2.2.2.2.2.2.2.2.1
  · intro v hv
    cases v with
    | num q => exact absurd rfl (hv q)
    | undefined => rfl
    | null => rfl
    | bool b => rfl
    | str s => rfl
    | arr elems => rfl
    | obj fields => rfl
  · intro q hq
    simp [normConfidenceScore, hq]
  · intro q h0 h1
    simp only [normConfidenceScore]
    rw [if_neg (not_lt.mpr h0), if_neg (not_lt.mpr h1)]
  · intro q h1 h100
    simp only [normConfidenceScore]
    rw [if_neg (by linarith : ¬q < 0), if_pos h1, if_neg (not_lt.mpr h100)]
  · intro q h100
    simp only [normConfidenceScore]
    rw [if_neg (by linarith : ¬q < 0), if_pos (by linarith : (1 : ℚ) < q), if_pos h100]
  · norm_num [normConfidenceScore]
  · norm_num [normConfidenceScore]
  · norm_num [normConfidenceScore]
  · norm_num [normConfidenceScore]

/-- C2 witness: the clamping cases applied at concrete inputs,
including the tie to a full normalizer run with `confidence_score`
150. -/
theorem confidence_score_clamping_witness :
    (⟨JValue.null, JValue.undefined, JValue.null, InvoiceType.unknown, [], none, none, none,
        "BDT", JValue.null, 1, JValue.null⟩ : GroqReceiptResponse).confidence_score
      = normConfidenceScore ((JValue.obj [("confidence_score", JValue.num 150)]).fieldOfD "confidence_score") ∧
    normConfidenceScore (JValue.num 150) = 1 ∧
    normConfidenceScore (JValue.num (3 / 4)) = 3 / 4 :=
  ⟨confidence_score_clamping.1 0 _ _ rfl,
   confidence_score_clamping.2.2.2.2.2.2.1 150 (by norm_num),
   confidence_score_clamping.2.2.2.2.1 (3 / 4) (by norm_num) (by norm_num)⟩

/-!  Claims C3, C4 and C7: the Retry Controller. -/

/-- Shared short-circuit lemma: if the first attempt's call returns a
result passing the loop's return test (`total !== null ||
error_message` truthy), the controller returns it after exactly one
attempt with no catch execution and no delay. -/
theorem retryLoop_first_attempt_return (call : Nat → Except String GroqReceiptResponse)
    (r : GroqReceiptResponse) (maxRetries : Nat) (hpos : 1 ≤ maxRetries)
    (hcall : call 1 = Except.ok r)
    (hcond : (r.total.isSome || r.error_message.jsTruthy) = true) :
    parseReceiptWithRetry call maxRetries = Except.ok ⟨[1], [], [], r⟩ := by
  obtain ⟨k, rfl⟩ : ∃ k, maxRetries = k + 1 := ⟨maxRetries - 1, by omega⟩
  unfold parseReceiptWithRetry retryLoop
  split
  · rename_i result heq
    rw [hcall] at heq
    cases heq
    rw [if_pos hcond]
    rfl
  · rename_i e heq
    rw [hcall] at heq
    exact Except.noConfusion heq

/-- C3 (confirmed): when every model call throws, three attempts run,
all three land in the catch branch, the backoff sleeps are 2000 ms
after attempt 1 and 4000 ms after attempt 2 with none after attempt 3,
and the terminal result has every nullable field null, `invoice_type`
unknown, currency BDT, zero confidence, and an error message naming
the 3 attempts and the last thrown message. -/
theorem retry_exhaustion_when_all_attempts_throw (f : Nat → String) :
    parseReceiptWithRetry (fun n => Except.error (f n)) 3 =
      Except.ok ⟨[1, 2, 3], [1, 2, 3], [2000, 4000],
        { merchant_name := JValue.null
          receipt_date := JValue.null
          receipt_number := JValue.null
          invoice_type := InvoiceType.unknown
          items := []
          subtotal := none
          tax := none
          total := none
          currency := "BDT"
          payment_method := JValue.null
          confidence_score := 0
          error_message := JValue.str ("Failed after 3 attempts: " ++ f 3) }⟩ := rfl

/-- C4 (confirmed): whatever the per-attempt operation does — return
any result or throw any exception at any attempt — the retry
controller returns a value to its caller and never raises. -/
theorem parseReceiptWithRetry_never_raises (call : Nat → Except String GroqReceiptResponse)
    (maxRetries : Nat) (_hpos : 1 ≤ maxRetries) :
    ∃ out, parseReceiptWithRetry call maxRetries = Except.ok out :=
  retryLoop_total call maxRetries maxRetries 1 none [] [] []

/-- C4 witness: a permanently-throwing call still yields a returned
value. -/
theorem parseReceiptWithRetry_never_raises_witness :
    1 ≤ 3 ∧ ∃ out, parseReceiptWithRetry (fun _ => Except.error "network down") 3 = Except.ok out :=
  ⟨by norm_num, parseReceiptWithRetry_never_raises (fun _ => Except.error "network down") 3 (by norm_num)⟩

/-- C7 counterexample: a first-attempt result with `error_message`
set to the empty string — set, i.e. non-null — does not short-circuit
the loop: the empty string is falsy, so the controller runs all three
attempts and exhausts. -/
theorem retry_continues_on_empty_error_message :
    (catchReceiptResult "").error_message.nullish = false ∧
    parseReceiptWithRetry (fun _ => Except.ok (catchReceiptResult "")) 3 =
      Except.ok ⟨[1, 2, 3], [], [], failureResult 3 (some "Failed to extract receipt total")⟩ :=
  ⟨rfl, rfl⟩

/-- C7 (corrected): if the first attempt returns a result with a
non-null total or a truthy (in particular non-empty) `error_message`,
the controller returns that result immediately: one attempt, no catch,
no backoff delay. -/
theorem retry_short_circuit_on_truthy_first_result (call : Nat → Except String GroqReceiptResponse)
    (r : GroqReceiptResponse) (maxRetries : Nat) (hpos : 1 ≤ maxRetries)
    (hcall : call 1 = Except.ok r)
    (hgood : r.total.isSome = true ∨ r.error_message.jsTruthy = true) :
    parseReceiptWithRetry call maxRetries = Except.ok ⟨[1], [], [], r⟩ :=
  retryLoop_first_attempt_return call r maxRetries hpos hcall
    (by rcases hgood with h | h <;> simp [h])

/-- C7 witness: a first attempt carrying a non-empty error message
returns immediately. -/
theorem retry_short_circuit_on_truthy_first_result_witness :
    parseReceiptWithRetry (fun _ => Except.ok (catchReceiptResult "bad image")) 3 =
      Except.ok ⟨[1], [], [], catchReceiptResult "bad image"⟩ :=
  retry_short_circuit_on_truthy_first_result _ _ 3 (by norm_num) rfl (Or.inr (by decide))

/-!  Claim C5: receipt-date canonicalization. -/

/-- C5 counterexample: an empty-string `receipt_date` is unparseable
text, but it does not normalize to null — being falsy, it skips the
date block entirely and passes through unchanged as `""`. -/
theorem empty_receipt_date_passes_through :
    (normalizeResponse 0 (JValue.obj [("receipt_date", JValue.str "")])).map (fun r => r.receipt_date)
      = Except.ok (JValue.str "") ∧
    (JValue.str "").nullish = false :=
  ⟨rfl, rfl⟩

/-- C5 (corrected): a truthy `receipt_date` that `new Date` parses is
rewritten to the date part of `toISOString()` — the canonical
`YYYY-MM-DD` form of the UTC day of the parsed instant; a truthy
unparseable one becomes null; a falsy one (null, undefined, the empty
string, 0, false) passes through unchanged; the block never throws
(it is a total function here).  Concretely, `"Jan 12, 2025"` becomes
`"2025-01-12"` at UTC offset 0 but `"2025-01-11"` at UTC+6 (month-name
dates parse in local time), and `"not a date"` becomes null. -/
theorem receipt_date_canonicalization (tz : Int) (response : JValue) (r : GroqReceiptResponse)
    (h : normalizeResponse tz response = Except.ok r) :
    ((response.fieldOfD "receipt_date").jsTruthy = false →
       r.receipt_date = response.fieldOfD "receipt_date") ∧
    ((response.fieldOfD "receipt_date").jsTruthy = true →
       ∀ ms, jsNewDate tz (response.fieldOfD "receipt_date") = some ms →
         r.receipt_date = JValue.str (isoDateOfMs ms)) ∧
    ((response.fieldOfD "receipt_date").jsTruthy = true →
       jsNewDate tz (response.fieldOfD "receipt_date") = none →
         r.receipt_date = JValue.null) ∧
    (normalizeResponse 0 (JValue.obj [("receipt_date", JValue.str "Jan 12, 2025")])).map (fun x => x.receipt_date)
      = Except.ok (JValue.str "2025-01-12") ∧
    (normalizeResponse 360 (JValue.obj [("receipt_date", JValue.str "Jan 12, 2025")])).map (fun x => x.receipt_date)
      = Except.ok (JValue.str "2025-01-11") ∧
    (normalizeResponse 0 (JValue.obj [("receipt_date", JValue.str "not a date")])).map (fun x => x.receipt_date)
      = Except.ok JValue.null := by
  have hrd := (normalizeResponse_ok_inv tz response r h).2.2.2.1
  refine ⟨?_, ?_, ?_, rfl, rfl, rfl⟩
  · intro hf
    rw [hrd]
    simp [normReceiptDate, hf]
  · intro ht ms hms
    rw [hrd]
    simp [normReceiptDate, ht, hms]
  · intro ht hnone
    rw [hrd]
    simp [normReceiptDate, ht, hnone]

/-- C5 witness: the unparseable-date case applied to a concrete
normalizer run. -/
theorem receipt_date_canonicalization_witness :
    (⟨JValue.null, JValue.null, JValue.null, InvoiceType.unknown, [], none, none, none,
        "BDT", JValue.null, 0, JValue.null⟩ : GroqReceiptResponse).receipt_date = JValue.null :=
  (receipt_date_canonicalization 0 (JValue.obj [("receipt_date", JValue.str "not a date")]) _ rfl).2.2.1
    rfl rfl

/-!  Claim C6: record assembly. -/

/-- C6 (confirmed): assembling a Receipt substitutes 0 for a null
total, mints `id` and `created_at` from the values generated at
creation time, and copies every other field through unchanged.  (The
hypothesis excludes `undefined` as `error_message`, which the spec's
ExtractionResult — text or null — cannot carry; `?? null` would turn
it into null.) -/
theorem record_assembly_fields (result : GroqReceiptResponse) (imageUri id created_at : String)
    (hem : result.error_message ≠ JValue.undefined) :
    (handleCaptureAssemble result imageUri id created_at).id = id ∧
    (handleCaptureAssemble result imageUri id created_at).created_at = created_at ∧
    (handleCaptureAssemble result imageUri id created_at).image_uri = imageUri ∧
    (handleCaptureAssemble result imageUri id created_at).total
      = (match result.total with | some t => t | none => 0) ∧
    (handleCaptureAssemble result imageUri id created_at).merchant_name = result.merchant_name ∧
    (handleCaptureAssemble result imageUri id created_at).receipt_date = result.receipt_date ∧
    (handleCaptureAssemble result imageUri id created_at).receipt_number = result.receipt_number ∧
    (handleCaptureAssemble result imageUri id created_at).invoice_type = result.invoice_type ∧
    (handleCaptureAssemble result imageUri id created_at).items = result.items ∧
    (handleCaptureAssemble result imageUri id created_at).subtotal = result.subtotal ∧
    (handleCaptureAssemble result imageUri id created_at).tax = result.tax ∧
    (handleCaptureAssemble result imageUri id created_at).currency = result.currency ∧
    (handleCaptureAssemble result imageUri id created_at).payment_method = result.payment_method ∧
    (handleCaptureAssemble result imageUri id created_at).confidence_score = result.confidence_score ∧
    (handleCaptureAssemble result imageUri id created_at).error_message = result.error_message := by
  refine ⟨rfl, rfl, rfl, ?_, rfl, rfl, rfl, rfl, rfl, rfl, rfl, rfl, rfl, rfl, ?_⟩
  · show result.total.getD 0 = (match result.total with | some t => t | none => 0)
    cases result.total <;> rfl
  · show jsCoalesce result.error_message JValue.null = result.error_message
    cases hv : result.error_message <;> first | rfl | exact absurd hv hem

/-- C6 witness: a result with a null total assembles into a receipt
with total 0 and the minted identity. -/
theorem record_assembly_fields_witness :
    (handleCaptureAssemble
        ⟨JValue.str "Shop", JValue.null, JValue.null, InvoiceType.retail, [], none, none, none,
          "BDT", JValue.null, 0, JValue.null⟩ "file-img" "id1" "t1").total = 0 ∧
    (handleCaptureAssemble
        ⟨JValue.str "Shop", JValue.null, JValue.null, InvoiceType.retail, [], none, none, none,
          "BDT", JValue.null, 0, JValue.null⟩ "file-img" "id1" "t1").id = "id1" ∧
    (handleCaptureAssemble
        ⟨JValue.str "Shop", JValue.null, JValue.null, InvoiceType.retail, [], none, none, none,
          "BDT", JValue.null, 0, JValue.null⟩ "file-img" "id1" "t1").merchant_name = JValue.str "Shop" := by
  have h := record_assembly_fields
    ⟨JValue.str "Shop", JValue.null, JValue.null, InvoiceType.retail, [], none, none, none,
      "BDT", JValue.null, 0, JValue.null⟩ "file-img" "id1" "t1"
    (fun heq => JValue.noConfusion heq)
  exact ⟨h.2.2.2.1, h.1, h.2.2.2.2.1⟩

/-!  Claim C8: image-eligibility resolution boundary. -/

/-- C8 (confirmed): for an existing file within the 20 MB size
ceiling, an image of exactly 33,177,600 pixels passes validation, and
any image strictly over that pixel count is rejected with the
resolution-too-high reason. -/
theorem validateImage_resolution_boundary (env : ValidateEnv) (info : ImageFileInfo) (w h : Nat)
    (hinfo : env.getInfo = Except.ok info) (hex : info.fileExists = true)
    (hsize : info.size.getD 0 ≤ 20 * 1024 * 1024) (hdims : env.getDimensions = Except.ok (w, h)) :
    (w * h = 33177600 → validateImage env = ⟨true, none⟩) ∧
    (33177600 < w * h →
       validateImage env = ⟨false, some "Image resolution too high (max 33 megapixels)"⟩) := by
  have hbody : ∀ outcome, validateImageBody env = Except.ok outcome → validateImage env = outcome := by
    intro outcome hb
    unfold validateImage
    rw [hb]
  constructor <;> intro hpx
  · apply hbody
    unfold validateImageBody
    rw [hinfo, except_bind_ok]
    simp only [hex, Bool.not_true, Bool.false_eq_true, if_false]
    rw [if_neg (by omega), hdims, except_bind_ok]
    dsimp only
    rw [if_neg (by rw [hpx]; norm_num : ¬w * h > 33177600)]
    rfl
  · apply hbody
    unfold validateImageBody
    rw [hinfo, except_bind_ok]
    simp only [hex, Bool.not_true, Bool.false_eq_true, if_false]
    rw [if_neg (by omega), hdims, except_bind_ok]
    dsimp only
    rw [if_pos (hpx : 33177600 < w * h)]
    rfl

/-- C8 witness: 7680 × 4320 is exactly 33,177,600 pixels and passes;
33,177,601 × 1 is one pixel over and is rejected. -/
theorem validateImage_resolution_boundary_witness :
    validateImage ⟨Except.ok ⟨true, some 1000⟩, Except.ok (7680, 4320)⟩ = ⟨true, none⟩ ∧
    validateImage ⟨Except.ok ⟨true, some 1000⟩, Except.ok (33177601, 1)⟩
      = ⟨false, some "Image resolution too high (max 33 megapixels)"⟩ :=
  ⟨(validateImage_resolution_boundary _ ⟨true, some 1000⟩ 7680 4320 rfl rfl (by norm_num) rfl).1 (by norm_num),
   (validateImage_resolution_boundary _ ⟨true, some 1000⟩ 33177601 1 rfl rfl (by norm_num) rfl).2 (by norm_num)⟩

/-!  Claim C9: line-item quantities. -/

/-- Quantity extraction of a successfully normalized item: the
`typeof === 'number'` passthrough, with no sign check. -/
theorem normalizeItem_quantity (item : JValue) (li : LineItem)
    (h : normalizeItem item = Except.ok li) :
    li.quantity = asNumOpt (item.fieldOfD "quantity") := by
  by_cases hn : item.nullish = true
  · cases item <;> simp_all [JValue.nullish, normalizeItem, JValue.getField, except_bind_error]
  · rw [normalizeItem_of_not_nullish item (by simpa using hn)] at h
    cases h
    rfl

/-- C9 counterexample: a negative item quantity passes through the
normalizer unchanged — the output quantity is −3, a negative number,
so quantities are not guaranteed non-negative. -/
theorem normalized_quantity_can_be_negative :
    (normalizeResponse 0 (JValue.obj [("items", JValue.arr
        [JValue.obj [("name", JValue.str "x"), ("quantity", JValue.num (-3)), ("price", JValue.num 1)]])])).map
        (fun r => r.items)
      = Except.ok [⟨"x", some (-3), 1⟩] ∧
    (-3 : ℚ) < 0 :=
  ⟨rfl, by norm_num⟩

/-- C9 (corrected): every line item of a normalized result has a
quantity that is either null (when the input element's quantity is not
a number) or exactly the input element's numeric quantity — which may
be negative; the code performs no non-negativity check. -/
theorem item_quantity_passthrough (tz : Int) (response : JValue) (r : GroqReceiptResponse)
    (h : normalizeResponse tz response = Except.ok r) :
    List.Forall₂ (fun x li => li.quantity = asNumOpt (x.fieldOfD "quantity"))
      (itemsListOf response) r.items := by
  have hitems := (normalizeResponse_ok_inv tz response r h).2.2.1
  unfold normItems at hitems
  unfold itemsListOf
  cases hfi : response.fieldOfD "items" <;> rw [hfi] at hitems
  case arr elems =>
    exact (mapM_ok_forall2 normalizeItem elems r.items hitems).imp
      (fun x li hx => normalizeItem_quantity x li hx)
  all_goals (rw [← Except.ok.inj hitems]; exact List.Forall₂.nil)

/-- C9 witness: a concrete numeric quantity passes through. -/
theorem item_quantity_passthrough_witness :
    List.Forall₂ (fun (x : JValue) (li : LineItem) => li.quantity = asNumOpt (x.fieldOfD "quantity"))
      (itemsListOf (JValue.obj [("items", JValue.arr
        [JValue.obj [("name", JValue.str "tea"), ("quantity", JValue.num 2), ("price", JValue.num 30)]])]))
      ([⟨"tea", some 2, 30⟩] : List LineItem) :=
  item_quantity_passthrough 0
    (JValue.obj [("items", JValue.arr
      [JValue.obj [("name", JValue.str "tea"), ("quantity", JValue.num 2), ("price", JValue.num 30)]])])
    ⟨JValue.null, JValue.undefined, JValue.null, InvoiceType.unknown, [⟨"tea", some 2, 30⟩],
      none, none, none, "BDT", JValue.null, 0, JValue.null⟩
    rfl

/-!  Claim C10: the single-attempt operation never rejects. -/

/-- C10 (confirmed): `parseReceipt` returns a value for every behavior
of its sub-operations; a thrown body is converted into the catch
result, whose `error_message` is the non-null thrown message; in
consequence, when the retry controller drives `parseReceipt`, its
catch branch never runs and no backoff delay ever elapses; and a hard
failure on the first attempt (with the nonempty message every failure
source in this code produces) ends the loop after that one attempt
with no delay. -/
theorem parseReceipt_never_rejects :
    (∀ env, ∃ r, parseReceipt env = Except.ok r) ∧
    (∀ env e, parseReceiptBody env = Except.error e →
       parseReceipt env = Except.ok (catchReceiptResult e) ∧
       (catchReceiptResult e).error_message.nullish = false) ∧
    (∀ (envs : Nat → ParseEnv) maxRetries out,
       parseReceiptWithRetry (fun n => parseReceipt (envs n)) maxRetries = Except.ok out →
       out.caught = [] ∧ out.delaysMs = []) ∧
    (∀ (envs : Nat → ParseEnv) maxRetries e, 1 ≤ maxRetries → parseReceiptBody (envs 1) = Except.error e → e ≠ "" →
       parseReceiptWithRetry (fun n => parseReceipt (envs n)) maxRetries =
         Except.ok ⟨[1], [], [], catchReceiptResult e⟩) := by
  refine ⟨parseReceipt_isOk, ?_, ?_, ?_⟩
  · intro env e he
    refine ⟨?_, rfl⟩
    unfold parseReceipt
    rw [he]
  · intro envs maxRetries out h
    exact retryLoop_all_ok_no_catch _ maxRetries (fun n => parseReceipt_isOk (envs n))
      maxRetries 1 none [] [] [] out h
  · intro envs maxRetries e hpos he hne
    have hcall : parseReceipt (envs 1) = Except.ok (catchReceiptResult e) := by
      unfold parseReceipt
      rw [he]
    exact retryLoop_first_attempt_return _ _ maxRetries hpos hcall
      (by simp [catchReceiptResult, JValue.jsTruthy, hne])

/-- C10 witness: a failing eligibility check on every attempt — the
processed-image step throws `Image file not found` — still yields a
returned result, after exactly one attempt, with no catch execution
and no delay. -/
theorem parseReceipt_never_rejects_witness :
    parseReceiptWithRetry
      (fun _ => parseReceipt ⟨0, Except.error "Image file not found", Except.ok "key",
        Except.ok ⟨true, 200, "OK", Except.ok JValue.null⟩, fun _ => Except.ok JValue.null⟩) 3 =
      Except.ok ⟨[1], [], [], catchReceiptResult "Image file not found"⟩ :=
  parseReceipt_never_rejects.2.2.2
    (fun _ => ⟨0, Except.error "Image file not found", Except.ok "key",
      Except.ok ⟨true, 200, "OK", Except.ok JValue.null⟩, fun _ => Except.ok JValue.null⟩)
    3 "Image file not found" (by norm_num) rfl (by decide)
